import Mathlib

/-!
Shallow embedding of `al_framework.py`, the single source file of the
data-centric-platform repository.  The program is a GUI application; the
embedding models the pure decision logic and the file-system effects of its
callbacks:

* `pathSuffix` / `pathStem` model Python's `Path(name).suffix` / `.stem`;
* `twoDCond` / `threeDCond` model the branch conditions at lines 268 and 277
  of `MainWindow.run_inference`;
* `process_image` models the per-image body of the `run_inference` loop
  (lines 261-291): which rescale/eval/resize calls are made and which mask
  file is written, or `none` when the `else` branch at line 286 calls
  `sys.exit()`;
* `runLoop` / `run_inference` model the whole loop over the directory
  listing (lines 252-291), recording the files passed to `model.eval`, the
  mask files written (all into the uncurated/eval directory, line 291), and
  the filename on which the program exited, if any;
* `DirState`, `on_add_button_clicked`, `get_layer_names`,
  `napari_window_seg` model the napari-window callbacks (lines 63-73,
  97-123);
* `start_main` and `launch_napari_window` model the welcome-window and
  main-window button callbacks (lines 365-379 and 213-229).

Image contents are irrelevant to every claim considered here, so an image is
represented by its shape (`List Nat` of dimensions); `skimage.transform.resize`
returns an array of exactly the requested output shape, which is how the
saved mask's shape is obtained.  Rescale factors are modelled in `ℚ`
(`max_dim/512` is exact in binary floating point, so `1/(max_dim/512)` and
`512/max_dim` agree there as well).
-/

/-- Python `Path(name).suffix` helper: index of the last occurrence of `c` in
`cs`, if any. -/
def rfindIdx (c : Char) : List Char → Option Nat
  | [] => none
  | a :: rest =>
    match rfindIdx c rest with
    | some i => some (i + 1)
    | none => if a = c then some 0 else none

/-- Python `pathlib.Path(name).suffix`: the final `"."`-component including the
dot, or `""` when the last dot is at position `0` (hidden file), at the very
end, or absent. -/
def pathSuffix (name : String) : String :=
  match rfindIdx '.' name.data with
  | some i => if 0 < i && i + 1 < name.data.length then String.mk (name.data.drop i) else ""
  | none => ""

/-- Python `pathlib.Path(name).stem`: the filename with `pathSuffix` removed. -/
def pathStem (name : String) : String :=
  match rfindIdx '.' name.data with
  | some i => if 0 < i && i + 1 < name.data.length then String.mk (name.data.take i) else name
  | none => name

/-- Auxiliary for `containsSub`: does `hay` start with `needle`? -/
def startsWithChars : List Char → List Char → Bool
  | [], _ => true
  | _ :: _, [] => false
  | a :: as, b :: bs => a == b && startsWithChars as bs

/-- Auxiliary for `containsSub`: does some tail of `hay` start with `needle`? -/
def hasSubChars (needle : List Char) : List Char → Bool
  | [] => startsWithChars needle []
  | b :: bs => startsWithChars needle (b :: bs) || hasSubChars needle bs

/-- Python's substring test `needle in hay`. -/
def containsSub (needle hay : String) : Bool :=
  hasSubChars needle.data hay.data

/-- `accepted_types` tuple, line 19 of `al_framework.py`. -/
def accepted_types : List String := [".jpg", ".jpeg", ".png", ".tiff", ".tif"]

/-- Condition of the 2D branch, line 268 of `run_inference` (Python `and`
binds tighter than `or`, so the third disjunct is NOT guarded by the
`.tiff`/`.tif` suffix test):
`suffix in (".jpg",".jpeg",".png") or ((suffix in (".tiff",".tif") and len==2)
or (len==3 and (shape[-1]==3 or shape[-1]==4)))`. -/
def twoDCond (img_filename : String) (orig_size : List Nat) : Bool :=
  decide (pathSuffix img_filename ∈ ([".jpg", ".jpeg", ".png"] : List String))
    || ((decide (pathSuffix img_filename ∈ ([".tiff", ".tif"] : List String))
            && (orig_size.length == 2))
        || ((orig_size.length == 3)
            && ((orig_size.getLast? == some 3) || (orig_size.getLast? == some 4))))

/-- Condition of the 3D-stack branch, line 277 of `run_inference` (reached
only when `twoDCond` is false):
`suffix in (".tiff",".tif") and len(orig_size)==3`. -/
def threeDCond (img_filename : String) (orig_size : List Nat) : Bool :=
  decide (pathSuffix img_filename ∈ ([".tiff", ".tif"] : List String))
    && (orig_size.length == 3)

/-- The 2D case exactly as claim C1 words it: suffix `.jpg`/`.jpeg`/`.png`, or
a `.tiff`/`.tif` with 2 dimensions, or a `.tiff`/`.tif` with 3 dimensions
whose last dimension is 3 or 4.  Stated from the claim, to be compared with
`twoDCond` taken from the source. -/
def claimTwoDCond (img_filename : String) (orig_size : List Nat) : Bool :=
  decide (pathSuffix img_filename ∈ ([".jpg", ".jpeg", ".png"] : List String))
    || ((decide (pathSuffix img_filename ∈ ([".tiff", ".tif"] : List String))
            && (orig_size.length == 2))
        || ((decide (pathSuffix img_filename ∈ ([".tiff", ".tif"] : List String))
              && (orig_size.length == 3))
            && ((orig_size.getLast? == some 3) || (orig_size.getLast? == some 4))))

/-- The 3D-stack case exactly as claim C1 words it: a `.tiff`/`.tif` with 3
dimensions not matching the RGB/RGBA case.  Stated from the claim, to be
compared with the source's branch structure. -/
def claimThreeDCond (img_filename : String) (orig_size : List Nat) : Bool :=
  (decide (pathSuffix img_filename ∈ ([".tiff", ".tif"] : List String))
      && (orig_size.length == 3))
    && !((orig_size.getLast? == some 3) || (orig_size.getLast? == some 4))

/-- The calls `run_inference` makes for one image that it processes without
exiting: the factor passed to `skimage.transform.rescale`, the `channel_axis`
keyword of that call, the `z_axis` keyword of `model.eval`, and the target
shape passed to `skimage.transform.resize` for the mask (which is therefore
the shape of the saved mask). -/
structure EvalCall where
  rescaleArg : ℚ
  channelAxis : Option Nat
  zAxis : Option Nat
  resizeTarget : List Nat
deriving DecidableEq

/-- Lines 261-289 of `run_inference`, for a single image of shape
`orig_size`: the 2D branch (lines 268-274), the 3D-stack branch (lines
277-284), or `none` for the `sys.exit()` at line 289. -/
def process_image (img_filename : String) (orig_size : List Nat) : Option EvalCall :=
  if twoDCond img_filename orig_size then
    let height := orig_size.getD 0 0
    let width := orig_size.getD 1 0
    let max_dim := max height width
    let rescale_factor : ℚ := (max_dim : ℚ) / 512
    some ⟨1 / rescale_factor, none, none, [height, width]⟩
  else if threeDCond img_filename orig_size then
    let height := orig_size.getD 1 0
    let width := orig_size.getD 2 0
    let max_dim := max height width
    let rescale_factor : ℚ := (max_dim : ℚ) / 512
    some ⟨1 / rescale_factor, some 0, some 0, [orig_size.getD 0 0, height, width]⟩
  else
    none

/-- Mask filename built at line 263 of `run_inference`:
`Path(img_filename).stem + '_seg.tiff'`. -/
def run_inference_seg_name (img_filename : String) : String :=
  pathStem img_filename ++ "_seg.tiff"

/-- Mask filename built at line 119 of `on_add_button_clicked`:
`Path(self.img_filename).stem + '_seg.tiff'`. -/
def add_button_seg_name (img_filename : String) : String :=
  pathStem img_filename ++ "_seg.tiff"

/-- Mask filename probed at line 63 of `NapariWindow.__init__`:
`Path(self.img_filename).stem + '_seg.tiff'`. -/
def potential_seg_name (img_filename : String) : String :=
  pathStem img_filename ++ "_seg.tiff"

/-- Which of the two data directories a file operation targets. -/
inductive TargetDir
  | evalDir
  | trainDir
deriving DecidableEq

/-- One `imsave` performed by `run_inference` (line 291): source image name
and shape, the mask filename, the mask's shape, and the directory written to
(always the uncurated/eval directory at line 291). -/
structure WriteRec where
  src : String
  srcShape : List Nat
  segName : String
  maskShape : List Nat
  dir : TargetDir
deriving DecidableEq

/-- Observable outcome of one `run_inference` call: the images passed to
`model.eval` (lines 273/283), the mask files written (line 291), and the
filename being processed when `sys.exit()` fired (line 289), if any. -/
structure RunResult where
  evaluated : List String
  writes : List WriteRec
  exitedOn : Option String
deriving DecidableEq

/-- The `for img_filename in list_files` loop of `run_inference`
(lines 254-291) over (filename, shape) pairs: skip names containing `'_seg'`
(line 256), otherwise process the image; `sys.exit()` aborts the rest of the
loop. -/
def runLoop : List (String × List Nat) → RunResult
  | [] => ⟨[], [], none⟩
  | (f, sh) :: rest =>
    if containsSub "_seg" f then runLoop rest
    else
      match process_image f sh with
      | some call =>
        let r := runLoop rest
        ⟨f :: r.evaluated,
          ⟨f, sh, run_inference_seg_name f, call.resizeTarget, TargetDir.evalDir⟩ :: r.writes,
          r.exitedOn⟩
      | none => ⟨[], [], some f⟩

/-- Line 252 of `run_inference`: keep only the files of the eval directory
whose `Path.suffix` is in `accepted_types`. -/
def list_files (dir_contents : List (String × List Nat)) : List (String × List Nat) :=
  dir_contents.filter (fun file => decide (pathSuffix file.1 ∈ accepted_types))

/-- `MainWindow.run_inference` (lines 240-291).  The method has access to
both directory paths, but only ever lists and touches the uncurated (eval)
directory: `train_dir_contents` is unused, exactly as in the source. -/
def run_inference (eval_dir_contents train_dir_contents : List (String × List Nat)) :
    RunResult :=
  runLoop (list_files eval_dir_contents)

example : run_inference [("cells.png", [10, 20, 3])] [] =
    ⟨["cells.png"],
      [⟨"cells.png", [10, 20, 3], "cells_seg.tiff", [10, 20], TargetDir.evalDir⟩],
      none⟩ := by decide

example : pathSuffix "a.tar.gz" = ".gz" ∧ pathStem "a.tar.gz" = "a.tar" ∧
    pathSuffix ".bashrc" = "" ∧ pathStem ".bashrc" = ".bashrc" := by decide

/-- The file names present in the uncurated (`eval_data_path`) and curated
(`train_data_path`) directories.  The two directories are modelled as
distinct, matching the intended use where the user selects two different
folders.  File contents are irrelevant to the claims, so a directory is the
set of names it contains; overwriting a file leaves the name set unchanged
(`insert`), which is `imsave`'s behaviour. -/
structure DirState where
  evalFiles : Finset String
  trainFiles : Finset String
deriving DecidableEq

/-- The kind of a napari layer, as tested by
`type(layer) == napari.layers.Labels` at line 104. -/
inductive LayerKind
  | image
  | labels
deriving DecidableEq

/-- A napari viewer layer: its `name` and its kind. -/
structure Layer where
  name : String
  kind : LayerKind
deriving DecidableEq

/-- `NapariWindow._get_layer_names` (lines 97-109) at its only call site
(default `layer_type = napari.layers.Labels`): the names of the Labels
layers; `[] + layer_names` when non-empty, `[]` otherwise. -/
def get_layer_names (layers : List Layer) : List String :=
  let layer_names := (layers.filter (fun layer => layer.kind == LayerKind.labels)).map Layer.name
  if layer_names.isEmpty then [] else [] ++ layer_names

/-- Outcome of one click on 'Add to training data': either the callback ran
to completion leaving the directories in state `st`, or a Python exception
propagated out of it with the directories in state `st` at that moment. -/
inductive ClickOutcome
  | ok (st : DirState)
  | failed (st : DirState)
deriving DecidableEq

/-- `NapariWindow.on_add_button_clicked` (lines 111-123).
`label_names[0]` raises `IndexError` when no Labels layer exists (before any
file operation); `os.replace` (line 118) raises `FileNotFoundError` when the
image is not in the eval directory (still before any modification in this
name-set model, since a same-directory replace is a no-op on names);
otherwise the image is moved to the train directory, the mask is saved there
as `stem + '_seg.tiff'` (line 120), and a mask of that name in the eval
directory is removed if present (lines 121-122). -/
def on_add_button_clicked (layers : List Layer) (img_filename : String) (st : DirState) :
    ClickOutcome :=
  match (get_layer_names layers).get? 0 with
  | none => ClickOutcome.failed st
  | some _ =>
    if img_filename ∈ st.evalFiles then
      let st1 : DirState :=
        ⟨st.evalFiles.erase img_filename, insert img_filename st.trainFiles⟩
      let seg_name := add_button_seg_name img_filename
      let st2 : DirState := ⟨st1.evalFiles, insert seg_name st1.trainFiles⟩
      if seg_name ∈ st2.evalFiles then
        ClickOutcome.ok ⟨st2.evalFiles.erase seg_name, st2.trainFiles⟩
      else
        ClickOutcome.ok st2
    else ClickOutcome.failed st

/-- Lines 63-73 of `NapariWindow.__init__`: the mask filename the viewer
loads alongside the image, if one exists — looked up in the eval directory
when the image is there, in the train directory otherwise, always under the
name `potential_seg_name`. -/
def napari_window_seg (img_filename : String) (st : DirState) : Option String :=
  if img_filename ∈ st.evalFiles then
    if potential_seg_name img_filename ∈ st.evalFiles then
      some (potential_seg_name img_filename)
    else none
  else
    if potential_seg_name img_filename ∈ st.trainFiles then
      some (potential_seg_name img_filename)
    else none

/-- Outcome of `WelcomeWindow.start_main`: either the welcome window is
hidden and a `MainWindow(eval_data_path, train_data_path)` is created, or a
warning message box is shown and the welcome window stays. -/
inductive StartOutcome
  | mainWindow (eval_data_path train_data_path : String)
  | warning
deriving DecidableEq

/-- `WelcomeWindow.start_main` (lines 365-379): Python truthiness of
`self.filename_train and self.filename_val` is 'both strings non-empty'. -/
def start_main (filename_val filename_train : String) : StartOutcome :=
  if filename_train ≠ "" ∧ filename_val ≠ "" then
    StartOutcome.mainWindow filename_val filename_train
  else
    StartOutcome.warning

/-- Outcome of `MainWindow.launch_napari_window`: either a warning message
box, or a `NapariWindow(img_filename, eval_data_path, train_data_path)`. -/
inductive LaunchOutcome
  | warning
  | napariWin (img_filename eval_data_path train_data_path : String)
deriving DecidableEq

/-- `MainWindow.launch_napari_window` (lines 213-229):
`if not self.cur_selected_img or '_seg.tiff' in self.cur_selected_img` shows
the warning; `cur_selected_img` is `None` until a list item is clicked, and
Python truthiness also treats `""` as no selection. -/
def launch_napari_window (cur_selected_img : Option String)
    (eval_data_path train_data_path : String) : LaunchOutcome :=
  match cur_selected_img with
  | none => LaunchOutcome.warning
  | some s =>
    if s = "" ∨ containsSub "_seg.tiff" s = true then LaunchOutcome.warning
    else LaunchOutcome.napariWin s eval_data_path train_data_path

example :
    on_add_button_clicked [⟨"seg", LayerKind.labels⟩] "img1.png"
        ⟨{"img1.png", "img1_seg.tiff"}, ∅⟩ =
      ClickOutcome.ok ⟨∅, {"img1_seg.tiff", "img1.png"}⟩ := by decide

/-! ### Helper lemmas -/

/-- Propositional core of the branch analysis, checked over all Boolean
valuations: `a`/`b` abbreviate suffix membership in the jpg/png list and the
tiff list, `c`/`d` the shape-length tests, `e` the last-dimension test. -/
theorem branch_bool_core :
    ∀ a b c d e : Bool, (a || b) = true → (a && b) = false → (c && d) = false →
      ((a || ((b && c) || (d && e))) = (a || ((b && c) || ((b && d) && e)))
        ∧ ((!(a || ((b && c) || (d && e))) && (b && d)) = ((b && d) && !e))
        ∧ (((a || ((b && c) || (d && e))) = false ∧ (b && d) = false) ↔
            ((a || ((b && c) || ((b && d) && e))) = false ∧ ((b && d) && !e) = false))) := by
  decide

/-- An accepted suffix is in the jpg/png list or in the tiff list. -/
theorem suffix_covered (s : String) (hacc : s ∈ accepted_types) :
    (decide (s ∈ ([".jpg", ".jpeg", ".png"] : List String))
      || decide (s ∈ ([".tiff", ".tif"] : List String))) = true := by
  simp only [accepted_types, List.mem_cons, List.not_mem_nil, or_false] at hacc
  rcases hacc with h | h | h | h | h <;> subst h <;> decide

/-- No suffix is both in the jpg/png list and in the tiff list. -/
theorem suffix_not_both (s : String) :
    (decide (s ∈ ([".jpg", ".jpeg", ".png"] : List String))
      && decide (s ∈ ([".tiff", ".tif"] : List String))) = false := by
  by_cases h : s ∈ ([".jpg", ".jpeg", ".png"] : List String)
  · simp only [List.mem_cons, List.not_mem_nil, or_false] at h
    rcases h with h | h | h <;> subst h <;> decide
  · simp [h]

/-- A shape does not have length 2 and length 3 at once. -/
theorem length_not_both (n : Nat) : ((n == 2) && (n == 3)) = false := by
  cases h : n == 2 with
  | false => simp
  | true =>
    have hn : n = 2 := by simpa using h
    subst hn; decide

/-- Under an accepted suffix, the source's branch structure agrees with the
claim's classification: the 2D branch is taken exactly on `claimTwoDCond`,
the 3D branch exactly on `claimThreeDCond`, and the `sys.exit` case exactly
when neither holds. -/
theorem branch_eq (f : String) (sh : List Nat) (hacc : pathSuffix f ∈ accepted_types) :
    twoDCond f sh = claimTwoDCond f sh
      ∧ (!(twoDCond f sh) && threeDCond f sh) = claimThreeDCond f sh
      ∧ ((twoDCond f sh = false ∧ threeDCond f sh = false) ↔
          (claimTwoDCond f sh = false ∧ claimThreeDCond f sh = false)) := by
  have h :=
    branch_bool_core
      (decide (pathSuffix f ∈ ([".jpg", ".jpeg", ".png"] : List String)))
      (decide (pathSuffix f ∈ ([".tiff", ".tif"] : List String)))
      (sh.length == 2) (sh.length == 3)
      ((sh.getLast? == some 3) || (sh.getLast? == some 4))
      (suffix_covered _ hacc) (suffix_not_both _) (length_not_both _)
  simpa only [twoDCond, claimTwoDCond, threeDCond, claimThreeDCond] using h

/-- `process_image` returns `none` exactly when neither branch condition
holds. -/
theorem process_image_eq_none (f : String) (sh : List Nat) :
    process_image f sh = none ↔ (twoDCond f sh = false ∧ threeDCond f sh = false) := by
  cases h2 : twoDCond f sh <;> cases h3 : threeDCond f sh <;>
    simp [process_image, h2, h3]

/-- Equation for `runLoop` on a `'_seg'` file: it is skipped. -/
theorem runLoop_cons_seg (f : String) (sh : List Nat) (rest : List (String × List Nat))
    (h : containsSub "_seg" f = true) :
    runLoop ((f, sh) :: rest) = runLoop rest := by
  simp [runLoop, h]

/-- Equation for `runLoop` on a processed file: it is evaluated and its mask
is written. -/
theorem runLoop_cons_some (f : String) (sh : List Nat) (rest : List (String × List Nat))
    (call : EvalCall) (h1 : containsSub "_seg" f = false)
    (h2 : process_image f sh = some call) :
    runLoop ((f, sh) :: rest) =
      ⟨f :: (runLoop rest).evaluated,
        ⟨f, sh, run_inference_seg_name f, call.resizeTarget, TargetDir.evalDir⟩ ::
          (runLoop rest).writes,
        (runLoop rest).exitedOn⟩ := by
  simp [runLoop, h1, h2]

/-- Equation for `runLoop` on an unsupported file: `sys.exit` discards the
rest of the loop; nothing is written for this file. -/
theorem runLoop_cons_none (f : String) (sh : List Nat) (rest : List (String × List Nat))
    (h1 : containsSub "_seg" f = false) (h2 : process_image f sh = none) :
    runLoop ((f, sh) :: rest) = ⟨[], [], some f⟩ := by
  simp [runLoop, h1, h2]

/-- Every filename in `(runLoop l).evaluated` comes from an entry of `l`
whose name does not contain `'_seg'` and which `process_image` accepts. -/
theorem runLoop_evaluated_mem (l : List (String × List Nat)) (f : String)
    (h : f ∈ (runLoop l).evaluated) :
    ∃ sh, (f, sh) ∈ l ∧ containsSub "_seg" f = false ∧ (process_image f sh).isSome := by
  induction l with
  | nil => simp [runLoop] at h
  | cons p rest ih =>
    obtain ⟨g, sh'⟩ := p
    by_cases hseg : containsSub "_seg" g = true
    · rw [runLoop_cons_seg g sh' rest hseg] at h
      obtain ⟨sh, hm, hs, hp⟩ := ih h
      exact ⟨sh, List.mem_cons_of_mem _ hm, hs, hp⟩
    · have hseg' : containsSub "_seg" g = false := Bool.eq_false_iff.mpr hseg
      cases hp : process_image g sh' with
      | some call =>
        rw [runLoop_cons_some g sh' rest call hseg' hp] at h
        simp only [List.mem_cons] at h
        rcases h with h | h
        · subst h
          exact ⟨sh', List.mem_cons_self _ _, hseg', by simp [hp]⟩
        · obtain ⟨sh, hm, hs, hq⟩ := ih h
          exact ⟨sh, List.mem_cons_of_mem _ hm, hs, hq⟩
      | none =>
        rw [runLoop_cons_none g sh' rest hseg' hp] at h
        simp at h

/-- If the loop finished without `sys.exit`, every entry of `l` whose name
does not contain `'_seg'` was passed to `model.eval`. -/
theorem runLoop_evaluated_complete (l : List (String × List Nat))
    (hex : (runLoop l).exitedOn = none) (f : String) (sh : List Nat)
    (hm : (f, sh) ∈ l) (hseg : containsSub "_seg" f = false) :
    f ∈ (runLoop l).evaluated := by
  induction l with
  | nil => simp at hm
  | cons p rest ih =>
    obtain ⟨g, sh'⟩ := p
    by_cases hg : containsSub "_seg" g = true
    · rw [runLoop_cons_seg g sh' rest hg] at hex ⊢
      simp only [List.mem_cons] at hm
      rcases hm with hm | hm
      · exfalso
        have hgf : f = g := congrArg Prod.fst hm
        rw [← hgf, hseg] at hg
        exact Bool.false_ne_true hg
      · exact ih hex hm
    · have hg' : containsSub "_seg" g = false := Bool.eq_false_iff.mpr hg
      cases hp : process_image g sh' with
      | some call =>
        rw [runLoop_cons_some g sh' rest call hg' hp] at hex ⊢
        simp only [List.mem_cons] at hm
        rcases hm with hm | hm
        · have hgf : f = g := congrArg Prod.fst hm
          simp [hgf]
        · exact List.mem_cons_of_mem _ (ih hex hm)
      | none =>
        rw [runLoop_cons_none g sh' rest hg' hp] at hex
        simp at hex

/-- Every write record of `runLoop` comes from an entry of `l` with no
`'_seg'` in its name, carries the mask shape `process_image` produced for it,
uses the `stem + '_seg.tiff'` filename, and targets the eval directory. -/
theorem runLoop_writes_mem (l : List (String × List Nat)) (w : WriteRec)
    (h : w ∈ (runLoop l).writes) :
    (w.src, w.srcShape) ∈ l ∧ containsSub "_seg" w.src = false
      ∧ (∃ call, process_image w.src w.srcShape = some call
          ∧ w.maskShape = call.resizeTarget)
      ∧ w.segName = run_inference_seg_name w.src ∧ w.dir = TargetDir.evalDir := by
  induction l with
  | nil => simp [runLoop] at h
  | cons p rest ih =>
    obtain ⟨g, sh'⟩ := p
    by_cases hg : containsSub "_seg" g = true
    · rw [runLoop_cons_seg g sh' rest hg] at h
      obtain ⟨hm, hs, hc, hn, hd⟩ := ih h
      exact ⟨List.mem_cons_of_mem _ hm, hs, hc, hn, hd⟩
    · have hg' : containsSub "_seg" g = false := Bool.eq_false_iff.mpr hg
      cases hp : process_image g sh' with
      | some call =>
        rw [runLoop_cons_some g sh' rest call hg' hp] at h
        simp only [List.mem_cons] at h
        rcases h with h | h
        · subst h
          exact ⟨List.mem_cons_self _ _, hg', ⟨call, hp, rfl⟩, rfl, rfl⟩
        · obtain ⟨hm, hs, hc, hn, hd⟩ := ih h
          exact ⟨List.mem_cons_of_mem _ hm, hs, hc, hn, hd⟩
      | none =>
        rw [runLoop_cons_none g sh' rest hg' hp] at h
        simp at h

/-- When `sys.exit` fired, the loop result up to that point is the result of
the prefix already processed. -/
theorem runLoop_append (pre rest : List (String × List Nat))
    (hex : (runLoop pre).exitedOn = none) :
    (runLoop (pre ++ rest)).evaluated = (runLoop pre).evaluated ++ (runLoop rest).evaluated
      ∧ (runLoop (pre ++ rest)).writes = (runLoop pre).writes ++ (runLoop rest).writes
      ∧ (runLoop (pre ++ rest)).exitedOn = (runLoop rest).exitedOn := by
  induction pre with
  | nil => simp [runLoop]
  | cons p pre' ih =>
    obtain ⟨g, sh'⟩ := p
    by_cases hg : containsSub "_seg" g = true
    · rw [runLoop_cons_seg g sh' pre' hg] at hex
      rw [List.cons_append, runLoop_cons_seg g sh' (pre' ++ rest) hg,
        runLoop_cons_seg g sh' pre' hg]
      exact ih hex
    · have hg' : containsSub "_seg" g = false := Bool.eq_false_iff.mpr hg
      cases hp : process_image g sh' with
      | some call =>
        rw [runLoop_cons_some g sh' pre' call hg' hp] at hex
        obtain ⟨he, hw, hx⟩ := ih hex
        rw [List.cons_append, runLoop_cons_some g sh' (pre' ++ rest) call hg' hp,
          runLoop_cons_some g sh' pre' call hg' hp]
        exact ⟨by simp [he], by simp [hw], hx⟩
      | none =>
        rw [runLoop_cons_none g sh' pre' hg' hp] at hex
        simp at hex

/-- The file on which `runLoop` exited is an entry of `l` with no `'_seg'` in
its name on which `process_image` hit the `sys.exit` branch. -/
theorem runLoop_exitedOn_mem (l : List (String × List Nat)) (f : String)
    (h : (runLoop l).exitedOn = some f) :
    ∃ sh, (f, sh) ∈ l ∧ containsSub "_seg" f = false ∧ process_image f sh = none := by
  induction l with
  | nil => simp [runLoop] at h
  | cons p rest ih =>
    obtain ⟨g, sh'⟩ := p
    by_cases hg : containsSub "_seg" g = true
    · rw [runLoop_cons_seg g sh' rest hg] at h
      obtain ⟨sh, hm, hs, hp⟩ := ih h
      exact ⟨sh, List.mem_cons_of_mem _ hm, hs, hp⟩
    · have hg' : containsSub "_seg" g = false := Bool.eq_false_iff.mpr hg
      cases hp : process_image g sh' with
      | some call =>
        rw [runLoop_cons_some g sh' rest call hg' hp] at h
        obtain ⟨sh, hm, hs, hq⟩ := ih h
        exact ⟨sh, List.mem_cons_of_mem _ hm, hs, hq⟩
      | none =>
        rw [runLoop_cons_none g sh' rest hg' hp] at h
        simp only [Option.some.injEq] at h
        subst h
        exact ⟨sh', List.mem_cons_self _ _, hg', hp⟩

/-- Membership transfer through the `list_files` suffix filter. -/
theorem mem_list_files (dir_contents : List (String × List Nat)) (f : String)
    (sh : List Nat) :
    (f, sh) ∈ list_files dir_contents ↔
      ((f, sh) ∈ dir_contents ∧ pathSuffix f ∈ accepted_types) := by
  simp [list_files]

/-- Equation for `process_image` in the 2D branch. -/
theorem process_image_twoD (f : String) (sh : List Nat) (h : twoDCond f sh = true) :
    process_image f sh =
      some ⟨1 / ((max (sh.getD 0 0) (sh.getD 1 0) : ℚ) / 512), none, none,
        [sh.getD 0 0, sh.getD 1 0]⟩ := by
  simp [process_image, h]

/-- Equation for `process_image` in the 3D-stack branch. -/
theorem process_image_threeD (f : String) (sh : List Nat) (h2 : twoDCond f sh = false)
    (h3 : threeDCond f sh = true) :
    process_image f sh =
      some ⟨1 / ((max (sh.getD 1 0) (sh.getD 2 0) : ℚ) / 512), some 0, some 0,
        [sh.getD 0 0, sh.getD 1 0, sh.getD 2 0]⟩ := by
  simp [process_image, h2, h3]

/-- A successfully processed image that missed the 2D branch satisfies the
3D-branch condition. -/
theorem process_image_some_not_twoD (f : String) (sh : List Nat)
    (h2 : twoDCond f sh = false) (h : (process_image f sh).isSome) :
    threeDCond f sh = true := by
  cases h3 : threeDCond f sh with
  | true => rfl
  | false =>
    rw [(process_image_eq_none f sh).mpr ⟨h2, h3⟩] at h
    simp at h

/-- The 3D-branch condition forces a shape of length 3. -/
theorem threeDCond_length (f : String) (sh : List Nat) (h : threeDCond f sh = true) :
    sh.length = 3 := by
  unfold threeDCond at h
  rw [Bool.and_eq_true] at h
  simpa using h.2

/-- State after a completed 'Add to training data' click: the image was in
the eval directory, and afterwards image and mask are in the train directory
and absent from the eval directory. -/
theorem on_add_ok_state (layers : List Layer) (f : String) (st st' : DirState)
    (h : on_add_button_clicked layers f st = ClickOutcome.ok st') :
    f ∈ st.evalFiles
      ∧ f ∉ st'.evalFiles ∧ add_button_seg_name f ∉ st'.evalFiles
      ∧ f ∈ st'.trainFiles ∧ add_button_seg_name f ∈ st'.trainFiles := by
  unfold on_add_button_clicked at h
  cases hn : (get_layer_names layers).get? 0 with
  | none => rw [hn] at h; simp at h
  | some name =>
    rw [hn] at h
    by_cases hm : f ∈ st.evalFiles
    · rw [if_pos hm] at h
      by_cases hs : add_button_seg_name f ∈ st.evalFiles.erase f
      · rw [if_pos hs] at h
        simp only [ClickOutcome.ok.injEq] at h
        subst h
        refine ⟨hm, ?_, ?_, ?_, ?_⟩
        · intro hf
          exact Finset.not_mem_erase f st.evalFiles (Finset.mem_of_mem_erase hf)
        · exact Finset.not_mem_erase _ _
        · exact Finset.mem_insert_of_mem (Finset.mem_insert_self _ _)
        · exact Finset.mem_insert_self _ _
      · rw [if_neg hs] at h
        simp only [ClickOutcome.ok.injEq] at h
        subst h
        exact ⟨hm, Finset.not_mem_erase _ _, hs,
          Finset.mem_insert_of_mem (Finset.mem_insert_self _ _),
          Finset.mem_insert_self _ _⟩
    · rw [if_neg hm] at h
      simp at h

/-! ### Claim theorems -/

/-- Claim C1: for every unlabeled image file of an accepted type,
`run_inference` picks the strategy based on the image's shape — the 2D
strategy (rescale by `512/max(height,width)`, eval with no `z_axis`, resize
the mask back to `(height,width)`) exactly when the image is 2D RGB or
grayscale as the claim describes it, and the 3D-stack strategy (rescale with
`channel_axis=0`, eval with `z_axis=0`, resize back to
`(depth,height,width)`) exactly when it is a `.tiff`/`.tif` with 3 dimensions
not matching the RGB/RGBA case. -/
theorem claim_C1_strategy_selection (f : String) (sh : List Nat)
    (hacc : pathSuffix f ∈ accepted_types)
    (hseg : containsSub "_seg" f = false) :
    twoDCond f sh = claimTwoDCond f sh
    ∧ (!(twoDCond f sh) && threeDCond f sh) = claimThreeDCond f sh
    ∧ (claimTwoDCond f sh = true →
        process_image f sh =
          some ⟨512 / (max (sh.getD 0 0) (sh.getD 1 0) : ℚ), none, none,
            [sh.getD 0 0, sh.getD 1 0]⟩)
    ∧ (claimThreeDCond f sh = true →
        process_image f sh =
          some ⟨512 / (max (sh.getD 1 0) (sh.getD 2 0) : ℚ), some 0, some 0,
            [sh.getD 0 0, sh.getD 1 0, sh.getD 2 0]⟩) := by
  obtain ⟨h1, h2, _⟩ := branch_eq f sh hacc
  refine ⟨h1, h2, ?_, ?_⟩
  · intro hc
    have ht : twoDCond f sh = true := by rw [h1]; exact hc
    rw [process_image_twoD f sh ht, one_div_div]
  · intro hc
    have hb : (!(twoDCond f sh) && threeDCond f sh) = true := by rw [h2]; exact hc
    rw [Bool.and_eq_true, Bool.not_eq_true'] at hb
    rw [process_image_threeD f sh hb.1 hb.2, one_div_div]

/-- Claim C1 witness: a concrete RGB png takes the 2D strategy. -/
theorem claim_C1_witness :
    process_image "img1.png" [100, 200, 3] =
      some ⟨512 / (200 : ℚ), none, none, [100, 200]⟩ :=
  (claim_C1_strategy_selection "img1.png" [100, 200, 3] (by decide) (by decide)).2.2.1
    (by decide)

/-- Claim C2: every mask `run_inference` writes is resized back to the
original resolution before saving — for an image taken through the 2D branch
the saved mask shape is the first two entries of the original shape, and for
a 3D stack it is the original shape itself. -/
theorem claim_C2_mask_original_resolution (e t : List (String × List Nat))
    (w : WriteRec) (hw : w ∈ (run_inference e t).writes) :
    (twoDCond w.src w.srcShape = true → 2 ≤ w.srcShape.length →
        w.maskShape = w.srcShape.take 2)
    ∧ (twoDCond w.src w.srcShape = false → w.maskShape = w.srcShape) := by
  obtain ⟨-, -, ⟨call, hp, hm⟩, -, -⟩ := runLoop_writes_mem _ w hw
  constructor
  · intro h2 hlen
    rw [process_image_twoD _ _ h2, Option.some.injEq] at hp
    rw [hm, ← hp]
    match w.srcShape, hlen with
    | a :: b :: rest, _ => rfl
  · intro h2
    have h3 : threeDCond w.src w.srcShape = true :=
      process_image_some_not_twoD _ _ h2 (by simp [hp])
    obtain ⟨a, b, c, habc⟩ := List.length_eq_three.mp (threeDCond_length _ _ h3)
    rw [process_image_threeD _ _ h2 h3, Option.some.injEq] at hp
    rw [hm, ← hp, habc]
    rfl

/-- Claim C2 witness: a concrete run writes a mask of the image's first two
dimensions. -/
theorem claim_C2_witness :
    (⟨"a.png", [4, 6, 3], "a_seg.tiff", [4, 6], TargetDir.evalDir⟩ : WriteRec).maskShape =
      ([4, 6, 3] : List Nat).take 2 :=
  (claim_C2_mask_original_resolution [("a.png", [4, 6, 3])] []
      ⟨"a.png", [4, 6, 3], "a_seg.tiff", [4, 6], TargetDir.evalDir⟩ (by decide)).1
    (by decide) (by decide)

/-- Claim C3: every mask file the program writes or looks up is named
`stem + '_seg.tiff'` after its source image: the name built at line 263 of
`run_inference` (and carried by every write it performs, all into the
uncurated directory), the name written by the confirm action (line 119, into
the curated directory), and the name the viewer window probes (line 63). -/
theorem claim_C3_seg_naming (f : String) :
    run_inference_seg_name f = pathStem f ++ "_seg.tiff"
    ∧ add_button_seg_name f = pathStem f ++ "_seg.tiff"
    ∧ potential_seg_name f = pathStem f ++ "_seg.tiff"
    ∧ (∀ e t : List (String × List Nat), ∀ w ∈ (run_inference e t).writes,
        w.segName = pathStem w.src ++ "_seg.tiff" ∧ w.dir = TargetDir.evalDir)
    ∧ (∀ (layers : List Layer) (st st' : DirState),
        on_add_button_clicked layers f st = ClickOutcome.ok st' →
        pathStem f ++ "_seg.tiff" ∈ st'.trainFiles)
    ∧ (∀ (st : DirState) (n : String), napari_window_seg f st = some n →
        n = pathStem f ++ "_seg.tiff") := by
  refine ⟨rfl, rfl, rfl, ?_, ?_, ?_⟩
  · intro e t w hw
    obtain ⟨-, -, -, hn, hd⟩ := runLoop_writes_mem _ w hw
    exact ⟨hn, hd⟩
  · intro layers st st' h
    exact (on_add_ok_state layers f st st' h).2.2.2.2
  · intro st n h
    unfold napari_window_seg at h
    split_ifs at h <;> simpa using h.symm

/-- Claim C3 witness: the concrete names agree on a sample image. -/
theorem claim_C3_witness :
    ("img1_seg.tiff" : String) = pathStem "img1.png" ++ "_seg.tiff" :=
  (claim_C3_seg_naming "img1.png").2.2.2.2.2
    ⟨{"img1.png", "img1_seg.tiff"}, ∅⟩ "img1_seg.tiff" (by decide)

/-- Claim C4: a confirmed 'Add to training data' click moves the image/mask
pair from the uncurated to the curated directory — afterwards the image and
the `stem + '_seg.tiff'` mask are both in the train directory and neither
remains in the eval directory. -/
theorem claim_C4_confirm_moves_pair (layers : List Layer) (f : String)
    (st st' : DirState) (h : on_add_button_clicked layers f st = ClickOutcome.ok st') :
    f ∉ st'.evalFiles ∧ add_button_seg_name f ∉ st'.evalFiles
      ∧ f ∈ st'.trainFiles ∧ add_button_seg_name f ∈ st'.trainFiles :=
  (on_add_ok_state layers f st st' h).2

/-- Claim C4 witness: a concrete click moves `img1.png` and removes the stale
mask from the uncurated directory. -/
theorem claim_C4_witness :
    ("img1.png" : String) ∉ (⟨∅, {"img1_seg.tiff", "img1.png"}⟩ : DirState).evalFiles
    ∧ add_button_seg_name "img1.png" ∉ (⟨∅, {"img1_seg.tiff", "img1.png"}⟩ : DirState).evalFiles
    ∧ ("img1.png" : String) ∈ (⟨∅, {"img1_seg.tiff", "img1.png"}⟩ : DirState).trainFiles
    ∧ add_button_seg_name "img1.png" ∈ (⟨∅, {"img1_seg.tiff", "img1.png"}⟩ : DirState).trainFiles :=
  claim_C4_confirm_moves_pair [⟨"seg", LayerKind.labels⟩] "img1.png"
    ⟨{"img1.png", "img1_seg.tiff"}, ∅⟩ ⟨∅, {"img1_seg.tiff", "img1.png"}⟩ (by decide)

/-- Claim C5: for an accepted file, `run_inference` hits `sys.exit` exactly
when the suffix/shape combination matches neither the 2D branch nor the
3D-stack branch (as the claim describes them), and the file a run exited on
is always such an unsupported, unlabeled, accepted file of the uncurated
directory. -/
theorem claim_C5_exit_iff_unsupported (f : String) (sh : List Nat)
    (hacc : pathSuffix f ∈ accepted_types) :
    (process_image f sh = none ↔
        (claimTwoDCond f sh = false ∧ claimThreeDCond f sh = false))
    ∧ (∀ (e t : List (String × List Nat)) (g : String),
        (run_inference e t).exitedOn = some g →
        ∃ shg, (g, shg) ∈ e ∧ pathSuffix g ∈ accepted_types
          ∧ containsSub "_seg" g = false ∧ process_image g shg = none) := by
  constructor
  · exact (process_image_eq_none f sh).trans (branch_eq f sh hacc).2.2
  · intro e t g h
    obtain ⟨shg, hm, hs, hp⟩ := runLoop_exitedOn_mem _ g h
    obtain ⟨hme, hacc'⟩ := (mem_list_files e g shg).mp hm
    exact ⟨shg, hme, hacc', hs, hp⟩

/-- Claim C5 witness: a 1-dimensional `.tif` hits the `sys.exit` branch. -/
theorem claim_C5_witness : process_image "x.tif" [5] = none :=
  (claim_C5_exit_iff_unsupported "x.tif" [5] (by decide)).1.mpr (by decide)

/-- Claim C6 counterexample: the claim as stated is false on the code.  The
claim says the inference routine walks two directories and invokes the model
for each unlabeled image of accepted type in them.  On this concrete input,
`t.png` is an unlabeled accepted image of the curated (train) directory and
`good.png` one of the uncurated (eval) directory, yet neither is ever passed
to `model.eval`: the routine only lists the eval directory, and the
unsupported 1-dimensional `bad.tiff` makes it exit before reaching
`good.png`. -/
theorem claim_C6_counterexample :
    pathSuffix "t.png" ∈ accepted_types
    ∧ containsSub "_seg" "t.png" = false
    ∧ ("t.png", ([8, 8, 3] : List Nat)) ∈ [("t.png", ([8, 8, 3] : List Nat))]
    ∧ "t.png" ∉ (run_inference [("bad.tiff", [5]), ("good.png", [10, 10, 3])]
        [("t.png", [8, 8, 3])]).evaluated
    ∧ pathSuffix "good.png" ∈ accepted_types
    ∧ containsSub "_seg" "good.png" = false
    ∧ ("good.png", ([10, 10, 3] : List Nat)) ∈
        [("bad.tiff", ([5] : List Nat)), ("good.png", [10, 10, 3])]
    ∧ "good.png" ∉ (run_inference [("bad.tiff", [5]), ("good.png", [10, 10, 3])]
        [("t.png", [8, 8, 3])]).evaluated := by
  decide

/-- Claim C6 as amended: the inference routine walks the uncurated (eval)
directory only; every file passed to `model.eval` is an unlabeled image of
that directory with accepted suffix and no `'_seg'` in its name, and —
provided no image triggers the unsupported-shape exit — every such unlabeled
image is passed to the model.  Files whose names contain `'_seg'` and files
with other suffixes are never passed to the model. -/
theorem claim_C6_amended_model_invocation (e t : List (String × List Nat)) :
    (∀ f ∈ (run_inference e t).evaluated,
        ∃ sh, (f, sh) ∈ e ∧ pathSuffix f ∈ accepted_types
          ∧ containsSub "_seg" f = false)
    ∧ ((run_inference e t).exitedOn = none →
        ∀ f sh, (f, sh) ∈ e → pathSuffix f ∈ accepted_types →
          containsSub "_seg" f = false → f ∈ (run_inference e t).evaluated) := by
  constructor
  · intro f hf
    obtain ⟨sh, hm, hs, -⟩ := runLoop_evaluated_mem _ f hf
    obtain ⟨hme, hacc⟩ := (mem_list_files e f sh).mp hm
    exact ⟨sh, hme, hacc, hs⟩
  · intro hex f sh hm hacc hs
    exact runLoop_evaluated_complete _ hex f sh ((mem_list_files e f sh).mpr ⟨hm, hacc⟩) hs

/-- Claim C6 witness: in a run with no exit, a concrete unlabeled image is
passed to the model. -/
theorem claim_C6_witness :
    "a.png" ∈ (run_inference [("a.png", [4, 4, 3]), ("notes.txt", [9])] []).evaluated :=
  (claim_C6_amended_model_invocation [("a.png", [4, 4, 3]), ("notes.txt", [9])] []).2
    (by decide) "a.png" [4, 4, 3] (by decide) (by decide) (by decide)

/-- Claim C7: when `run_inference` exits on an unsupported image, no mask is
written for the offending image and the masks written for the images
processed earlier in the same run are exactly the run's output — there is no
rollback: the result's writes are those of the prefix before the offender,
every one of them originating from that prefix and targeting the uncurated
directory. -/
theorem claim_C7_exit_preserves_earlier_masks (e t pre suff : List (String × List Nat))
    (f : String) (sh : List Nat)
    (hsplit : list_files e = pre ++ (f, sh) :: suff)
    (hpre : (runLoop pre).exitedOn = none)
    (hseg : containsSub "_seg" f = false)
    (hbad : process_image f sh = none) :
    (run_inference e t).writes = (runLoop pre).writes
    ∧ (run_inference e t).exitedOn = some f
    ∧ ∀ w ∈ (run_inference e t).writes,
        (w.src, w.srcShape) ∈ pre ∧ w.dir = TargetDir.evalDir := by
  have happ := runLoop_append pre ((f, sh) :: suff) hpre
  have hrun : run_inference e t = runLoop (pre ++ (f, sh) :: suff) := by
    rw [run_inference, hsplit]
  have hcons := runLoop_cons_none f sh suff hseg hbad
  refine ⟨?_, ?_, ?_⟩
  · rw [hrun, happ.2.1, hcons]
    simp
  · rw [hrun, happ.2.2, hcons]
  · intro w hw
    rw [hrun, happ.2.1, hcons] at hw
    simp only [List.append_nil] at hw
    obtain ⟨hm, -, -, -, hd⟩ := runLoop_writes_mem pre w hw
    exact ⟨hm, hd⟩

/-- Claim C7 witness: a concrete run that exits on its second file keeps the
mask written for the first. -/
theorem claim_C7_witness :
    (run_inference [("a.png", [4, 6, 3]), ("bad.tif", [7])] []).writes =
        (runLoop [("a.png", [4, 6, 3])]).writes
    ∧ (run_inference [("a.png", [4, 6, 3]), ("bad.tif", [7])] []).exitedOn = some "bad.tif"
    ∧ ∀ w ∈ (run_inference [("a.png", [4, 6, 3]), ("bad.tif", [7])] []).writes,
        (w.src, w.srcShape) ∈ [("a.png", ([4, 6, 3] : List Nat))]
          ∧ w.dir = TargetDir.evalDir :=
  claim_C7_exit_preserves_earlier_masks
    [("a.png", [4, 6, 3]), ("bad.tif", [7])] [] [("a.png", [4, 6, 3])] []
    "bad.tif" [7] (by decide) (by decide) (by decide) (by decide)

/-- Claim C8: when the viewer holds no Labels layer, the
`label_names[0]` indexing in `on_add_button_clicked` fails before
`os.replace` is reached, so the click leaves both directories exactly as they
were. -/
theorem claim_C8_click_without_labels_is_safe (layers : List Layer)
    (img_filename : String) (st : DirState)
    (h : ∀ l ∈ layers, l.kind ≠ LayerKind.labels) :
    on_add_button_clicked layers img_filename st = ClickOutcome.failed st := by
  have hfil : layers.filter (fun layer => layer.kind == LayerKind.labels) = [] := by
    rw [List.filter_eq_nil_iff]
    intro a ha
    simpa using h a ha
  have hnames : get_layer_names layers = [] := by
    rw [get_layer_names, hfil]
    simp
  rw [on_add_button_clicked, hnames]
  rfl

/-- Claim C8 witness: a click with only an Image layer changes nothing. -/
theorem claim_C8_witness :
    on_add_button_clicked [⟨"raw", LayerKind.image⟩] "x.png"
        ⟨{"x.png"}, ∅⟩ =
      ClickOutcome.failed ⟨{"x.png"}, ∅⟩ :=
  claim_C8_click_without_labels_is_safe [⟨"raw", LayerKind.image⟩] "x.png"
    ⟨{"x.png"}, ∅⟩ (by decide)

/-- Claim C9: `start_main` hides the welcome window and creates the
`MainWindow` exactly when both directory strings are non-empty, and shows the
warning (leaving the welcome window as the active window) exactly when one of
them is empty. -/
theorem claim_C9_start_main_iff (filename_val filename_train : String) :
    (start_main filename_val filename_train =
        StartOutcome.mainWindow filename_val filename_train ↔
      (filename_train ≠ "" ∧ filename_val ≠ ""))
    ∧ (start_main filename_val filename_train = StartOutcome.warning ↔
      (filename_train = "" ∨ filename_val = "")) := by
  by_cases ht : filename_train = "" <;> by_cases hv : filename_val = "" <;>
    simp [start_main, ht, hv]

/-- Claim C9 witness: two non-empty folder names start the main window. -/
theorem claim_C9_witness :
    start_main "evalFolder" "trainFolder" =
      StartOutcome.mainWindow "evalFolder" "trainFolder" :=
  (claim_C9_start_main_iff "evalFolder" "trainFolder").1.mpr (by decide)

/-- Claim C10: `launch_napari_window` opens a viewer window exactly when an
image is selected (a click has set a non-empty filename) and that filename
does not contain `'_seg.tiff'`; with no selection, or with a mask selected,
it shows the warning box and creates no viewer. -/
theorem claim_C10_launch_iff (cur : Option String) (e t : String) :
    (cur = none → launch_napari_window cur e t = LaunchOutcome.warning)
    ∧ (∀ s, cur = some s → s ≠ "" →
        ((launch_napari_window cur e t = LaunchOutcome.napariWin s e t ↔
            containsSub "_seg.tiff" s = false)
          ∧ (launch_napari_window cur e t = LaunchOutcome.warning ↔
            containsSub "_seg.tiff" s = true))) := by
  constructor
  · intro h; rw [h]; rfl
  · intro s hs hne
    subst hs
    cases hc : containsSub "_seg.tiff" s <;>
      simp [launch_napari_window, hne, hc]

/-- Claim C10 witness: a concrete selected image opens the viewer. -/
theorem claim_C10_witness :
    launch_napari_window (some "img1.png") "e" "t" =
      LaunchOutcome.napariWin "img1.png" "e" "t" :=
  (((claim_C10_launch_iff (some "img1.png") "e" "t").2 "img1.png" rfl (by decide)).1).mpr
    (by decide)
